import Mathlib

/-!
Shallow embedding of the REST API management emulator in
moto/apigateway/models.py: the resource tree with derived paths, the
method/integration lifecycle, deployments and stages, the stage patch
interpreter, and the backend-level API-key and usage-plan-key operations.

Python dictionaries are embedded as insertion-ordered association lists,
Python floats as exact rationals (every float arising in the source is a
small decimal), and raised exceptions as explicit error values.  Mutation
is embedded as state passing; operations that can mutate before raising
return the mutated state alongside the error.
-/

namespace ApiGateway

/-- Errors corresponding to the exceptions raised in the source.  keyError,
indexError and valueError model the built-in Python exceptions the source
lets escape; patchNotImplemented models the generic Exception raised by the
patch interpreters for unsupported operations. -/
inductive ApiError where
  | restAPINotFound
  | invalidResourcePathException
  | noMethodDefined
  | noIntegrationDefined
  | crossAccountNotAllowed
  | integrationMethodNotDefined
  | awsProxyNotAllowed
  | roleNotSpecified
  | invalidHttpEndpoint
  | invalidArn
  | invalidIntegrationArn
  | apiKeyAlreadyExists
  | apiKeyNotFoundException
  | keyError
  | indexError
  | valueError
  | patchNotImplemented
  deriving DecidableEq

/-- Lookup in an insertion-ordered association list (Python dict lookup). -/
def dictGet? {α : Type} : List (String × α) → String → Option α
  | [], _ => none
  | (k2, v) :: rest, k => if k2 == k then some v else dictGet? rest k

/-- Assignment in an insertion-ordered association list (Python dict
assignment): overwriting keeps the key position, a new key is appended at
the end. -/
def dictSet {α : Type} : List (String × α) → String → α → List (String × α)
  | [], k, v => [(k, v)]
  | (k2, v2) :: rest, k, v =>
    if k2 == k then (k2, v) :: rest else (k2, v2) :: dictSet rest k v

/-- Python membership test on a dict. -/
def dictHas {α : Type} (d : List (String × α)) (k : String) : Bool :=
  (dictGet? d k).isSome

/-- Python dict.values: the values in insertion order. -/
def dictValues {α : Type} (d : List (String × α)) : List α :=
  d.map Prod.snd

/-- Python dict.pop with default None: drop the entry when present. -/
def dictPop {α : Type} (d : List (String × α)) (k : String) : List (String × α) :=
  d.eraseP (fun kv => kv.1 == k)

/-- Drop the literal pattern from the front of the character list, returning
the remainder on success. -/
def dropLit : List Char → List Char → Option (List Char)
  | rest, [] => some rest
  | [], _ :: _ => none
  | c :: cs, p :: ps => if c == p then dropLit cs ps else none

/-- Suffix following the last occurrence of the pattern
(Python str.rindex plus slicing past the pattern). -/
def suffixAfterLast (pat : List Char) : List Char → Option (List Char)
  | [] => dropLit [] pat
  | c :: cs =>
    match suffixAfterLast pat cs with
    | some r => some r
    | none => dropLit (c :: cs) pat

/-- Python substring containment (the in operator on str). -/
def strContains (s pat : String) : Bool :=
  (suffixAfterLast pat.toList s.toList).isSome

/-- Anchored literal prefix match (re.match on a literal pattern, or
str.startswith). -/
def strStarts (s pre : String) : Bool :=
  (dropLit s.toList pre.toList).isSome

/-- Split at the first occurrence of the separator character. -/
def splitAtFirst (sep : Char) : List Char → Option (List Char × List Char)
  | [] => none
  | c :: cs =>
    if c == sep then some ([], cs)
    else
      match splitAtFirst sep cs with
      | none => none
      | some (p, q) => some (c :: p, q)

/-- Python str.split(sep, maxsplit) for a one-character separator. -/
def splitCharsN (sep : Char) : Nat → List Char → List (List Char)
  | 0, cs => [cs]
  | n + 1, cs =>
    match splitAtFirst sep cs with
    | none => [cs]
    | some (p, q) => p :: splitCharsN sep n q

/-- Python str.split(sep, maxsplit) on strings. -/
def pySplitN (sep : Char) (maxsplit : Nat) (s : String) : List String :=
  (splitCharsN sep maxsplit s.toList).map String.mk

/-- ASCII lower-casing of one character. -/
def charLower (c : Char) : Char :=
  if 'A' ≤ c && c ≤ 'Z' then Char.ofNat (c.toNat + 32) else c

/-- Python str.lower on the ASCII inputs used here. -/
def strLower (s : String) : String :=
  String.mk (s.toList.map charLower)

/-- Stage._str2bool and ApiKey._str2bool: v.lower() == "true". -/
def str2bool (v : String) : Bool :=
  strLower v == "true"

/-- Python truthiness of an optional string (None and "" are falsy). -/
def optStrTruthy : Option String → Bool
  | none => false
  | some s => s != ""

/-- Python truthiness of an optional bool (None is falsy). -/
def optBoolTruthy : Option Bool → Bool
  | none => false
  | some b => b

/-- Value of a nonempty all-digit character list, none otherwise. -/
def digitsToNat (cs : List Char) : Option Nat :=
  if cs.isEmpty then none
  else if cs.all Char.isDigit then
    some (cs.foldl (fun acc c => acc * 10 + (c.toNat - 48)) 0)
  else none

/-- Python int(...) on the decimal forms fed to the patch interpreter. -/
def pyInt (s : String) : Option Int :=
  match s.toList with
  | '-' :: rest => (digitsToNat rest).map (fun n => -(n : Int))
  | '+' :: rest => (digitsToNat rest).map (fun n => (n : Int))
  | cs => (digitsToNat cs).map (fun n => (n : Int))

/-- First-occurrence split for a literal pattern: the part before the
pattern and the part after it. -/
def splitFirstLit : List Char → List Char → Option (List Char × List Char)
  | [], pat => (dropLit [] pat).map (fun r => (([] : List Char), r))
  | c :: cs, pat =>
    match dropLit (c :: cs) pat with
    | some rest => some ([], rest)
    | none => (splitFirstLit cs pat).map (fun pr => (c :: pr.1, pr.2))

/-- Python float(...) on simple decimal forms; float values are embedded as
exact rationals (every float in the source is a small decimal literal; the
sign is applied by negation so the value computes by kernel reduction). -/
def pyFloat (s : String) : Option Rat :=
  let signAndRest : Bool × List Char :=
    match s.toList with
    | '-' :: rest => (true, rest)
    | '+' :: rest => (false, rest)
    | cs => (false, cs)
  let neg := signAndRest.1
  let cs := signAndRest.2
  match splitFirstLit cs ['.'] with
  | none => (digitsToNat cs).map (fun n => if neg then -(n : Rat) else (n : Rat))
  | some (ip, fp) =>
    if ip.isEmpty && fp.isEmpty then none
    else if ip.all Char.isDigit && fp.all Char.isDigit then
      let ipn : Nat := ip.foldl (fun acc c => acc * 10 + (c.toNat - 48)) 0
      let fpn : Nat := fp.foldl (fun acc c => acc * 10 + (c.toNat - 48)) 0
      let a : Rat := (ipn : Rat) + (fpn : Rat) / ((10 : Rat) ^ fp.length)
      some (if neg then -a else a)
    else none

/-- Fractional decimal digits of a nonnegative rational below one
(at most n digits, stopping at zero). -/
def fracDigits : Nat → Rat → String
  | 0, _ => ""
  | n + 1, q =>
    if q = 0 then ""
    else
      let q10 := q * 10
      let d := q10.floor
      toString d ++ fracDigits n (q10 - (d : Rat))

/-- Python str(...) of a float value: decimal rendering of the embedded
rational. -/
def ratPyStr (q : Rat) : String :=
  let sgn := if q < 0 then "-" else ""
  let a := if q < 0 then -q else q
  let ip := a.floor
  let frac := a - (ip : Rat)
  sgn ++ toString ip ++ "." ++ (if frac = 0 then "0" else fracDigits 20 frac)

/-- Character class of the path_part pattern in create_resource. -/
def isSegChar (c : Char) : Bool :=
  c.isAlpha || c.isDigit || c == '.' || c == '_' || c == '-'

/-- Character class of the ARN region and service components. -/
def isArnChar (c : Char) : Bool :=
  c.isAlpha || c.isDigit || c == '-'

/-- Python re end anchor: end of string, or just before one final newline. -/
def reEnd : List Char → Bool
  | [] => true
  | [c] => c == '\n'
  | _ => false

/-- re.match of the path_part pattern of create_resource: an optional
opening brace, one or more segment characters, an optional plus, an
optional closing brace, then the end of the string.  No separator of the
pattern lies in the character class, so the greedy run is exactly the
maximal run and the match is deterministic. -/
def matchResourcePath (s : String) : Bool :=
  let cs := s.toList
  let cs1 := match cs with
    | '\x7b' :: rest => rest
    | _ => cs
  let run := cs1.takeWhile isSegChar
  let rest1 := cs1.dropWhile isSegChar
  if run.isEmpty then false
  else
    let rest2 := match rest1 with
      | '+' :: r => r
      | _ => rest1
    let rest3 := match rest2 with
      | '\x7d' :: r => r
      | _ => rest2
    reEnd rest3

/-- re.match of the s3-targeting apigateway ARN pattern used by the
AwsProxyNotAllowed and RoleNotSpecified checks (prefix match). -/
def matchApigwS3 (uri : String) : Bool :=
  match dropLit uri.toList ("arn:aws:apigateway:".toList) with
  | none => false
  | some rest =>
    let run := rest.takeWhile isArnChar
    let rest1 := rest.dropWhile isArnChar
    !run.isEmpty && (dropLit rest1 (":s3".toList)).isSome

/-- re.match of the apigateway path-or-action ARN shape required of AWS and
AWS_PROXY integration URIs (prefix match). -/
def matchApigwPathAction (uri : String) : Bool :=
  match dropLit uri.toList ("arn:aws:apigateway:".toList) with
  | none => false
  | some rest =>
    let run1 := rest.takeWhile isArnChar
    let rest1 := rest.dropWhile isArnChar
    if run1.isEmpty then false
    else
      match dropLit rest1 [':'] with
      | none => false
      | some rest2 =>
        let run2 := rest2.takeWhile isArnChar
        let rest3 := rest2.dropWhile isArnChar
        if run2.isEmpty then false
        else
          match dropLit rest3 [':'] with
          | none => false
          | some rest4 =>
            (dropLit rest4 ("path/".toList)).isSome ||
              (dropLit rest4 ("action/".toList)).isSome

/-- Modelled from the spec: APIGatewayBackend._uri_validator delegates URL
parsing to the external urlparse library, which is not part of src; per the
spec an HTTP endpoint is well formed exactly when scheme, host and path are
all present. -/
def uriValidator (uri : String) : Bool :=
  match splitFirstLit uri.toList ("://".toList) with
  | none => false
  | some (scheme, rest) =>
    let netloc := rest.takeWhile (fun c => c != '/')
    let path := rest.dropWhile (fun c => c != '/')
    !scheme.isEmpty && !netloc.isEmpty && !path.isEmpty

/-- Values held by a stage's method settings: Python bool, int, float or
str (floats as exact rationals). -/
inductive SettingVal where
  | b : Bool → SettingVal
  | i : Int → SettingVal
  | f : Rat → SettingVal
  | s : String → SettingVal
  deriving DecidableEq

/-- IntegrationResponse record.  Optional fields whose keys the constructor
only sets when the argument is truthy are embedded as Option fields. -/
structure IntegrationResponse where
  statusCode : Nat
  selectionPattern : Option String
  responseTemplates : Option (List (String × Option String))
  contentHandling : Option String
  deriving DecidableEq

/-- IntegrationResponse.__init__: a missing response_templates mapping is
replaced by the default application/json entry with a None body. -/
def mkIntegrationResponse (statusCode : Nat)
    (selectionPattern : Option String := none)
    (responseTemplates : Option (List (String × Option String)) := none)
    (contentHandling : Option String := none) : IntegrationResponse :=
  let rt := match responseTemplates with
    | none => some [("application/json", none)]
    | some t => some t
  { statusCode := statusCode
    selectionPattern := if optStrTruthy selectionPattern then selectionPattern else none
    responseTemplates := rt
    contentHandling := if optStrTruthy contentHandling then contentHandling else none }

/-- Integration record. -/
structure Integration where
  type : String
  uri : String
  httpMethod : String
  requestTemplates : Option (List (String × String))
  integrationResponses : List (String × IntegrationResponse)
  deriving DecidableEq

/-- Integration.__init__: seeds integrationResponses with a default entry
for status code 200. -/
def mkIntegration (integrationType uri httpMethod : String)
    (requestTemplates : Option (List (String × String)) := none) : Integration :=
  { type := integrationType
    uri := uri
    httpMethod := httpMethod
    requestTemplates := requestTemplates
    integrationResponses := [("200", mkIntegrationResponse 200)] }

/-- MethodResponse record. -/
structure MethodResponse where
  statusCode : String
  deriving DecidableEq

/-- Method record: the dict keys set by Method.__init__ plus the separate
method_responses attribute. -/
structure Method where
  httpMethod : String
  authorizationType : Option String
  authorizerId : Option String
  apiKeyRequired : Bool
  requestParameters : Option (List (String × Bool))
  requestModels : Option (List (String × String))
  methodIntegration : Option Integration
  method_responses : List (String × MethodResponse)
  deriving DecidableEq

/-- Method.__init__: apiKeyRequired is api_key_required or False, so None
and False both store False. -/
def mkMethod (methodType : String) (authorizationType : Option String)
    (api_key_required : Option Bool := none) : Method :=
  { httpMethod := methodType
    authorizationType := authorizationType
    authorizerId := none
    apiKeyRequired := api_key_required.getD false
    requestParameters := none
    requestModels := none
    methodIntegration := none
    method_responses := [] }

/-- Resource node of the tree.  The source also stores region_name and
api_id, used only to re-locate the owning API through the process-wide
backend registry when resolving the parent; here the owning API is passed
to the path functions directly. -/
structure Resource where
  id : String
  path_part : String
  parent_id : Option String
  resource_methods : List (String × Method)
  deriving DecidableEq

/-- Deployment record; createdDate comes from the external clock. -/
structure Deployment where
  id : String
  stageName : String
  description : String
  createdDate : Int
  deriving DecidableEq

/-- Stage record.  cacheClusterEnabled may hold Python None (backend-level
create_stage passes None through), hence Option Bool; cacheClusterSize is
Option String because the dict key is only sometimes present. -/
structure Stage where
  stageName : Option String
  deploymentId : Option String
  methodSettings : List (String × List (String × SettingVal))
  stageVariables : List (String × String)
  description : String
  cacheClusterEnabled : Option Bool
  cacheClusterSize : Option String
  deriving DecidableEq

/-- Stage.__init__. -/
def mkStage (name : Option String) (deployment_id : Option String)
    (vars : List (String × String) := [])
    (description : String := "")
    (cacheClusterEnabled : Option Bool := some false)
    (cacheClusterSize : Option String := none) : Stage :=
  let st : Stage :=
    { stageName := name
      deploymentId := deployment_id
      methodSettings := []
      stageVariables := vars
      description := description
      cacheClusterEnabled := cacheClusterEnabled
      cacheClusterSize := none }
  let st := if optBoolTruthy st.cacheClusterEnabled then
    { st with cacheClusterSize := some "0.5" } else st
  match cacheClusterSize with
  | some sz => { st with cacheClusterSize := some sz }
  | none => st

/-- ApiKey record (the id and the generated secret value come from the
external id generator and RNG, passed in as arguments). -/
structure ApiKey where
  id : String
  value : String
  name : Option String
  customerId : Option String
  description : Option String
  enabled : Bool
  createdDate : Int
  lastUpdatedDate : Int
  stageKeys : List (String × String)
  tags : Option (List (String × String))
  deriving DecidableEq

/-- Payload of create_apikey (the generate_distinct_id flag is accepted and
ignored by the source constructor). -/
structure ApiKeyPayload where
  name : Option String := none
  description : Option String := none
  enabled : Bool := false
  value : Option String := none
  stageKeys : List (String × String) := []
  tags : Option (List (String × String)) := none
  customerId : Option String := none
  deriving DecidableEq

/-- ApiKey.__init__: an explicit truthy value is kept, otherwise the
generated 40-character value is used. -/
def mkApiKey (freshId freshValue : String) (now : Int) (p : ApiKeyPayload) : ApiKey :=
  { id := freshId
    value := match p.value with
      | some v => if v == "" then freshValue else v
      | none => freshValue
    name := p.name
    customerId := p.customerId
    description := p.description
    enabled := p.enabled
    createdDate := now
    lastUpdatedDate := now
    stageKeys := p.stageKeys
    tags := p.tags }

/-- UsagePlanKey record. -/
structure UsagePlanKey where
  id : String
  name : Option String
  type : String
  value : String
  deriving DecidableEq

/-- Payload of create_usage_plan_key. -/
structure UsagePlanKeyPayload where
  keyId : String
  keyType : String
  deriving DecidableEq

/-- REST API aggregate.  Authorizers, models and the metadata fields
(timestamps, api-key source, endpoint configuration, policy, tags) are not
touched by the operations below and are omitted. -/
structure RestAPI where
  id : String
  name : String
  description : String
  deployments : List (String × Deployment)
  stages : List (String × Stage)
  resources : List (String × Resource)
  deriving DecidableEq

/-- RestAPI.add_child: create a node and insert it into the mapping
(child ids come from the external id generator). -/
def addChild (api : RestAPI) (childId : String) (path : String)
    (parent_id : Option String := none) : RestAPI × Resource :=
  let child : Resource :=
    { id := childId, path_part := path, parent_id := parent_id, resource_methods := [] }
  ({ api with resources := dictSet api.resources childId child }, child)

/-- RestAPI.__init__: starts with exactly the default root child "/" and
no parent. -/
def mkRestAPI (apiId rootId name description : String) : RestAPI :=
  (addChild { id := apiId, name := name, description := description,
              deployments := [], stages := [], resources := [] } rootId "/").1

/-- Resource.get_path and Resource.get_parent_path, inlined into one
fuel-indexed recursion over the parent chain.  A falsy parent_id (None or
the empty string) means root, so the parent path is empty and the result
is the node's own path segment; otherwise the parent is looked up in the
owning API's mapping (None embeds the KeyError of a dangling parent or
exhausted fuel) and a slash is appended to its path unless that path is
already the root path. -/
def getPath (api : RestAPI) : Nat → Resource → Option String
  | 0, _ => none
  | fuel + 1, res =>
    if optStrTruthy res.parent_id then
      match dictGet? api.resources (res.parent_id.getD "") with
      | none => none
      | some parent =>
        match getPath api fuel parent with
        | none => none
        | some parentPath =>
          some ((if parentPath == "/" then parentPath else parentPath ++ "/") ++
            res.path_part)
    else some ("" ++ res.path_part)

/-- One step of the scan in RestAPI.get_resource_for_path.  An inner error
embeds a KeyError escaping from get_path on a dangling parent (or exhausted
fuel); falling off the list returns ok none, matching the source, which
just falls off the loop (the TODO comment) and implicitly returns None. -/
def scanForPath (api : RestAPI) (fuel : Nat) (p : String) :
    List Resource → Except ApiError (Option Resource)
  | [] => Except.ok none
  | res :: rest =>
    match getPath api fuel res with
    | none => Except.error ApiError.keyError
    | some rp => if rp == p then Except.ok (some res) else scanForPath api fuel p rest

/-- RestAPI.get_resource_for_path: linear scan over the nodes in insertion
order. -/
def getResourceForPath (api : RestAPI) (fuel : Nat) (p : String) :
    Except ApiError (Option Resource) :=
  scanForPath api fuel p (dictValues api.resources)

/-- Resource.add_method (silently overwrites an existing method of the same
type). -/
def addMethod (res : Resource) (methodType : String)
    (authorizationType : Option String) (apiKeyRequiredArg : Option Bool) :
    Resource × Method :=
  let m := mkMethod methodType authorizationType apiKeyRequiredArg
  ({ res with resource_methods := dictSet res.resource_methods methodType m }, m)

/-- Resource.add_integration: the Integration stores the method type as its
httpMethod; assigning into resource_methods[method_type] raises KeyError
when the method does not exist. -/
def addIntegration (res : Resource) (methodType integrationType uri : String)
    (requestTemplates : Option (List (String × String)) := none) :
    Except ApiError (Resource × Integration) :=
  let integ := mkIntegration integrationType uri methodType requestTemplates
  match dictGet? res.resource_methods methodType with
  | none => Except.error ApiError.keyError
  | some m =>
    let m2 := { m with methodIntegration := some integ }
    Except.ok
      ({ res with resource_methods := dictSet res.resource_methods methodType m2 }, integ)

/-- RestAPI.create_stage: builds a Stage against an existing deployment id
and stores it under its name (update_integration_mocks only registers
handlers with the external HTTP mock transport and is out of scope). -/
def RestAPI.createStage (api : RestAPI) (name : String) (deployment_id : String)
    (vars : List (String × String) := []) (description : String := "")
    (cacheClusterEnabled : Option Bool := none)
    (cacheClusterSize : Option String := none) : RestAPI × Stage :=
  let stage := mkStage (some name) (some deployment_id) vars description
    cacheClusterEnabled cacheClusterSize
  ({ api with stages := dictSet api.stages name stage }, stage)

/-- RestAPI.create_deployment: unconditionally creates the Deployment
record and a same-named Stage pointing at it, replacing any pre-existing
stage of that name (the deployment id comes from the external id
generator, createdDate from the clock). -/
def RestAPI.createDeployment (api : RestAPI) (deployment_id : String) (now : Int)
    (name : String) (description : String := "")
    (stage_variables : List (String × String) := []) : RestAPI × Deployment :=
  let deployment : Deployment :=
    { id := deployment_id, stageName := name, description := description, createdDate := now }
  let api := { api with deployments := dictSet api.deployments deployment_id deployment }
  let newStage := mkStage (some name) (some deployment_id) stage_variables
  let api := { api with stages := dictSet api.stages name newStage }
  (api, deployment)

/-- One patch operation: op, path, value (value defaults to the empty
string for operations that never read it). -/
structure PatchOp where
  op : String
  path : String
  value : String := ""
  deriving DecidableEq

/-- Stage._method_settings_translations (the source's final else arm
evaluates a bare None expression, so an unknown key returns None). -/
def methodSettingsTranslations (key : String) : Option String :=
  dictGet?
    [("metrics/enabled", "metricsEnabled"),
     ("logging/loglevel", "loggingLevel"),
     ("logging/dataTrace", "dataTraceEnabled"),
     ("throttling/burstLimit", "throttlingBurstLimit"),
     ("throttling/rateLimit", "throttlingRateLimit"),
     ("caching/enabled", "cachingEnabled"),
     ("caching/ttlInSeconds", "cacheTtlInSeconds"),
     ("caching/dataEncrypted", "cacheDataEncrypted"),
     ("caching/requireAuthorizationForCacheControl", "requireAuthorizationForCacheControl"),
     ("caching/unauthorizedCacheControlHeaderStrategy",
       "unauthorizedCacheControlHeaderStrategy")]
    key

/-- Stage._get_default_method_settings, in source order. -/
def defaultMethodSettings : List (String × SettingVal) :=
  [("throttlingRateLimit", SettingVal.f 1000),
   ("dataTraceEnabled", SettingVal.b false),
   ("metricsEnabled", SettingVal.b false),
   ("unauthorizedCacheControlHeaderStrategy", SettingVal.s "SUCCEED_WITH_RESPONSE_HEADER"),
   ("cacheTtlInSeconds", SettingVal.i 300),
   ("cacheDataEncrypted", SettingVal.b true),
   ("cachingEnabled", SettingVal.b false),
   ("throttlingBurstLimit", SettingVal.i 2000),
   ("requireAuthorizationForCacheControl", SettingVal.b true)]

/-- Stage._convert_to_type: per-field coercion; none embeds the ValueError
of int(...) or float(...) on an unparsable value; an unmapped key passes
through as text. -/
def convertToType (key val : String) : Option SettingVal :=
  match dictGet?
    [("metricsEnabled", "bool"),
     ("loggingLevel", "str"),
     ("dataTraceEnabled", "bool"),
     ("throttlingBurstLimit", "int"),
     ("throttlingRateLimit", "float"),
     ("cachingEnabled", "bool"),
     ("cacheTtlInSeconds", "int"),
     ("cacheDataEncrypted", "bool"),
     ("requireAuthorizationForCacheControl", "bool"),
     ("unauthorizedCacheControlHeaderStrategy", "str")] key with
  | some tv =>
    if tv == "bool" then some (SettingVal.b (str2bool val))
    else if tv == "int" then (pyInt val).map SettingVal.i
    else if tv == "float" then (pyFloat val).map SettingVal.f
    else some (SettingVal.s val)
  | none => some (SettingVal.s val)

/-- Stage._patch_method_setting: an untranslatable key is a no-op; a fresh
resource-path-and-method key is first populated with the defaults (this
insertion precedes the coercion, so it survives a coercion ValueError,
returned as the error case's state). -/
def patchMethodSetting (st : Stage) (resourcePathAndMethod key value : String) :
    Stage × Option ApiError :=
  match methodSettingsTranslations key with
  | none => (st, none)
  | some updatedKey =>
    let st :=
      if dictHas st.methodSettings resourcePathAndMethod then st
      else { st with methodSettings :=
               dictSet st.methodSettings resourcePathAndMethod defaultMethodSettings }
    let settings := (dictGet? st.methodSettings resourcePathAndMethod).getD []
    match convertToType updatedKey value with
    | none => (st, some ApiError.valueError)
    | some v =>
      ({ st with methodSettings :=
           dictSet st.methodSettings resourcePathAndMethod (dictSet settings updatedKey v) },
        none)

/-- Stage._apply_operation_to_variables: the key is the path suffix after
the last occurrence of the variables marker; remove pops silently, replace
upserts, anything else raises. -/
def applyOperationToVariables (st : Stage) (op : PatchOp) : Stage × Option ApiError :=
  let key := String.mk ((suffixAfterLast ("variables/".toList) op.path.toList).getD [])
  if op.op == "remove" then
    ({ st with stageVariables := dictPop st.stageVariables key }, none)
  else if op.op == "replace" then
    ({ st with stageVariables := dictSet st.stageVariables key op.value }, none)
  else (st, some ApiError.patchNotImplemented)

/-- One iteration of Stage.apply_operations: substring dispatch in source
order; a replace whose path does not split into exactly four parts is
silently skipped; any other op is the unsupported-patch-operation error. -/
def applyOp (st : Stage) (op : PatchOp) : Stage × Option ApiError :=
  if strContains op.path "variables/" then applyOperationToVariables st op
  else if strContains op.path "/cacheClusterEnabled" then
    let newEnabled := str2bool op.value
    let st := { st with cacheClusterEnabled := some newEnabled }
    if !st.cacheClusterSize.isSome && newEnabled then
      ({ st with cacheClusterSize := some "0.5" }, none)
    else (st, none)
  else if strContains op.path "/cacheClusterSize" then
    match pyFloat op.value with
    | none => (st, some ApiError.valueError)
    | some q => ({ st with cacheClusterSize := some (ratPyStr q) }, none)
  else if strContains op.path "/description" then
    ({ st with description := op.value }, none)
  else if strContains op.path "/deploymentId" then
    ({ st with deploymentId := some op.value }, none)
  else if op.op == "replace" then
    match pySplitN '/' 3 op.path with
    | [_, p1, p2, p3] => patchMethodSetting st (p1 ++ "/" ++ p2) p3 op.value
    | _ => (st, none)
  else (st, some ApiError.patchNotImplemented)

/-- Stage.apply_operations: sequential, in-place and non-transactional —
the state accumulated before the first failing operation is kept, and the
remaining operations are not applied. -/
def applyOperations : Stage → List PatchOp → Stage × Option ApiError
  | st, [] => (st, none)
  | st, op :: rest =>
    match applyOp st op with
    | (st2, some e) => (st2, some e)
    | (st2, none) => applyOperations st2 rest

/-- Backend registry state.  The usage_plans, domain_names and models
collections and the region registry are not touched by the operations
below and are omitted. -/
structure APIGatewayBackend where
  apis : List (String × RestAPI)
  keys : List (String × ApiKey)
  usage_plan_keys : List (String × List (String × UsagePlanKey))
  region_name : String
  deriving DecidableEq

/-- APIGatewayBackend.get_rest_api. -/
def getRestApi (b : APIGatewayBackend) (function_id : String) :
    Except ApiError RestAPI :=
  match dictGet? b.apis function_id with
  | none => Except.error ApiError.restAPINotFound
  | some api => Except.ok api

/-- APIGatewayBackend.get_resource: a missing resource id raises KeyError. -/
def getResource (b : APIGatewayBackend) (function_id resource_id : String) :
    Except ApiError (RestAPI × Resource) :=
  match getRestApi b function_id with
  | Except.error e => Except.error e
  | Except.ok api =>
    match dictGet? api.resources resource_id with
    | none => Except.error ApiError.keyError
    | some res => Except.ok (api, res)

/-- APIGatewayBackend.create_resource: the path_part is matched against the
segment pattern before the REST API is resolved. -/
def createResource (b : APIGatewayBackend) (childId : String)
    (function_id : String) (parent_resource_id : Option String)
    (path_part : String) : Except ApiError (APIGatewayBackend × Resource) :=
  if !matchResourcePath path_part then Except.error ApiError.invalidResourcePathException
  else
    match getRestApi b function_id with
    | Except.error e => Except.error e
    | Except.ok api =>
      let (api2, child) := addChild api childId path_part parent_resource_id
      Except.ok ({ b with apis := dictSet b.apis function_id api2 }, child)

/-- APIGatewayBackend.create_integration: the seven validation checks in
source order, then the integration is attached (the current account id is
supplied by the external account-identity provider). -/
def createIntegration (b : APIGatewayBackend) (accountId : String)
    (function_id resource_id method_type integration_type uri : String)
    (integration_method : Option String := none)
    (credentials : Option String := none)
    (request_templates : Option (List (String × String)) := none) :
    Except ApiError (APIGatewayBackend × Integration) :=
  match getResource b function_id resource_id with
  | Except.error e => Except.error e
  | Except.ok (api, resource) =>
    if optStrTruthy credentials &&
        !strStarts (credentials.getD "") ("arn:aws:iam::" ++ accountId) then
      Except.error ApiError.crossAccountNotAllowed
    else if !optStrTruthy integration_method &&
        ["HTTP", "HTTP_PROXY", "AWS", "AWS_PROXY"].contains integration_type then
      Except.error ApiError.integrationMethodNotDefined
    else if ["AWS_PROXY"].contains integration_type && matchApigwS3 uri then
      Except.error ApiError.awsProxyNotAllowed
    else if ["AWS"].contains integration_type && matchApigwS3 uri &&
        !optStrTruthy credentials then
      Except.error ApiError.roleNotSpecified
    else if ["HTTP", "HTTP_PROXY"].contains integration_type && !uriValidator uri then
      Except.error ApiError.invalidHttpEndpoint
    else if ["AWS", "AWS_PROXY"].contains integration_type &&
        !strStarts uri "arn:aws:" then
      Except.error ApiError.invalidArn
    else if ["AWS", "AWS_PROXY"].contains integration_type &&
        !matchApigwPathAction uri then
      Except.error ApiError.invalidIntegrationArn
    else
      match addIntegration resource method_type integration_type uri request_templates with
      | Except.error e => Except.error e
      | Except.ok (res2, integ) =>
        let api2 := { api with resources := dictSet api.resources resource_id res2 }
        Except.ok ({ b with apis := dictSet b.apis function_id api2 }, integ)

/-- APIGatewayBackend.create_deployment: the method and integration checks
inspect only the first inner list of the per-resource method lists (the
source indexes the list comprehension with zero), i.e. only the methods of
the first resource in insertion order; an empty resources mapping would be
an IndexError.  Both checks precede the aggregate-level creation. -/
def createDeployment (b : APIGatewayBackend) (deployment_id : String) (now : Int)
    (function_id name : String) (description : String := "")
    (stage_variables : List (String × String) := []) :
    Except ApiError (APIGatewayBackend × Deployment) :=
  match getRestApi b function_id with
  | Except.error e => Except.error e
  | Except.ok api =>
    let methodLists := (dictValues api.resources).map
      (fun res => dictValues res.resource_methods)
    match methodLists.head? with
    | none => Except.error ApiError.indexError
    | some methods =>
      if methods.isEmpty then Except.error ApiError.noMethodDefined
      else
        let methodIntegrations := methods.map (fun m => m.methodIntegration)
        if !methodIntegrations.any (fun mi => mi.isSome) then
          Except.error ApiError.noIntegrationDefined
        else
          let (api2, deployment) :=
            RestAPI.createDeployment api deployment_id now name description stage_variables
          Except.ok ({ b with apis := dictSet b.apis function_id api2 }, deployment)

/-- APIGatewayBackend.create_apikey: with an explicit (non-None) value the
whole key collection is scanned for a duplicate value before anything is
stored. -/
def createApikey (b : APIGatewayBackend) (freshId freshValue : String) (now : Int)
    (p : ApiKeyPayload) : APIGatewayBackend × Except ApiError ApiKey :=
  match p.value with
  | some v =>
    if (dictValues b.keys).any (fun k => k.value == v) then
      (b, Except.error ApiError.apiKeyAlreadyExists)
    else
      let key := mkApiKey freshId freshValue now p
      ({ b with keys := dictSet b.keys key.id key }, Except.ok key)
  | none =>
    let key := mkApiKey freshId freshValue now p
    ({ b with keys := dictSet b.keys key.id key }, Except.ok key)

/-- APIGatewayBackend.create_usage_plan_key: an empty per-plan mapping is
created for an unseen usage-plan id before the key-existence check, so that
insertion persists even when ApiKeyNotFoundException is raised; on success
the key's current name and value are copied into the association. -/
def createUsagePlanKey (b : APIGatewayBackend) (usage_plan_id : String)
    (p : UsagePlanKeyPayload) : APIGatewayBackend × Except ApiError UsagePlanKey :=
  let b :=
    if dictHas b.usage_plan_keys usage_plan_id then b
    else { b with usage_plan_keys := dictSet b.usage_plan_keys usage_plan_id [] }
  match dictGet? b.keys p.keyId with
  | none => (b, Except.error ApiError.apiKeyNotFoundException)
  | some apiKey =>
    let upk : UsagePlanKey :=
      { id := p.keyId, name := apiKey.name, type := p.keyType, value := apiKey.value }
    let planKeys := (dictGet? b.usage_plan_keys usage_plan_id).getD []
    let planKeys2 := dictSet planKeys upk.id upk
    let b2 := { b with usage_plan_keys := dictSet b.usage_plan_keys usage_plan_id planKeys2 }
    (b2, Except.ok upk)

/-! Concrete sample states used by witnesses and counterexamples. -/

/-- Root node of the sample APIs (the default child added at construction). -/
def rootW : Resource :=
  { id := "root", path_part := "/", parent_id := none, resource_methods := [] }

/-- A child node under the root with no methods. -/
def childW : Resource :=
  { id := "res1", path_part := "pets", parent_id := some "root", resource_methods := [] }

/-- Sample API with a root and one method-less child. -/
def apiW : RestAPI :=
  { id := "api1", name := "my_api", description := "d",
    deployments := [], stages := [], resources := [("root", rootW), ("res1", childW)] }

/-- Sample stage as created by create_deployment. -/
def stW : Stage := mkStage (some "prod") (some "dep0")

/-- Sample integration. -/
def integW : Integration := mkIntegration "HTTP" "http://example.com/x" "GET"

/-- Sample method carrying an integration. -/
def methW : Method := { mkMethod "GET" (some "NONE") with methodIntegration := some integW }

/-- The child node again, now holding the integration-bearing method. -/
def childM : Resource :=
  { id := "res1", path_part := "pets", parent_id := some "root",
    resource_methods := [("GET", methW)] }

/-- Sample API whose root has no methods while its child resource has a
method with an integration. -/
def apiC1 : RestAPI :=
  { id := "api1", name := "n", description := "",
    deployments := [], stages := [], resources := [("root", rootW), ("res1", childM)] }

/-- Backend holding apiC1. -/
def bC1 : APIGatewayBackend :=
  { apis := [("api1", apiC1)], keys := [], usage_plan_keys := [], region_name := "us-east-1" }

/-- Empty backend. -/
def b0 : APIGatewayBackend :=
  { apis := [], keys := [], usage_plan_keys := [], region_name := "us-east-1" }

/-- Sample API key with explicit value abc. -/
def keyA : ApiKey := mkApiKey "k1" "genvalue" 0 { value := some "abc" }

/-- Backend holding one API key. -/
def bK : APIGatewayBackend :=
  { apis := [], keys := [("k1", keyA)], usage_plan_keys := [], region_name := "us-east-1" }

/-- Backend with one API key (id k2) and one already-seen usage plan. -/
def bUPK : APIGatewayBackend :=
  { apis := [], keys := [("k2", keyA)], usage_plan_keys := [("planX", [])],
    region_name := "us-east-1" }

/-- The method-settings entry the wildcard throttling patch creates: the
defaults with throttlingRateLimit replaced by the float 500. -/
def rateLimitedDefaults : List (String × SettingVal) :=
  dictSet defaultMethodSettings "throttlingRateLimit" (SettingVal.f 500)

/-! Association-list lemmas shared by the claim theorems. -/

theorem dictGet_dictSet_self {α : Type} (d : List (String × α)) (k : String) (v : α) :
    dictGet? (dictSet d k v) k = some v := by
  induction d with
  | nil => simp [dictSet, dictGet?]
  | cons kv rest ih =>
    obtain ⟨k2, v2⟩ := kv
    cases h : (k2 == k) with
    | true => simp [dictSet, dictGet?, h]
    | false => simp [dictSet, dictGet?, h, ih]

theorem dictGet_dictSet_ne {α : Type} (d : List (String × α)) (k k2 : String) (v : α)
    (h : k2 ≠ k) : dictGet? (dictSet d k v) k2 = dictGet? d k2 := by
  induction d with
  | nil =>
    have hne : (k == k2) = false := by
      simp only [beq_eq_false_iff_ne]
      exact fun hh => h hh.symm
    simp [dictSet, dictGet?, hne]
  | cons kv rest ih =>
    obtain ⟨k3, v3⟩ := kv
    cases h3 : (k3 == k) with
    | true =>
      have hk3 : k3 = k := by simpa using h3
      have hne : ¬ (k3 = k2) := by rw [hk3]; exact fun hh => h hh.symm
      simp [dictSet, dictGet?, h3, hne]
    | false => simp [dictSet, dictGet?, h3, ih]

theorem dictSet_dictSet_self {α : Type} (d : List (String × α)) (k : String) (v w : α) :
    dictSet (dictSet d k v) k w = dictSet d k w := by
  induction d with
  | nil => simp [dictSet]
  | cons kv rest ih =>
    obtain ⟨k2, v2⟩ := kv
    cases h : (k2 == k) with
    | true => simp [dictSet, h]
    | false => simp [dictSet, h, ih]

/-! Claim theorems. -/

/-- C1: the claim says create_deployment succeeds whenever some method in
the API's resource tree has an integration, and signals NoIntegrationDefined
when methods exist but lack integrations.  The code indexes the list of
per-resource method lists with zero, so both checks inspect only the first
resource in insertion order (the root): in bC1 the child resource holds a
GET method with an integration, yet create_deployment raises
NoMethodDefined because the root has no methods. -/
theorem C1_create_deployment_first_resource_only :
    createDeployment bC1 "dep1" 0 "api1" "prod" =
      Except.error ApiError.noMethodDefined := rfl

/-- C9: applying the patch op replace /cacheClusterEnabled true to a stage
with no cacheClusterSize field sets cacheClusterEnabled to true and
cacheClusterSize to the string 0.5. -/
theorem C9_cache_cluster_enabled_patch (st : Stage) (h : st.cacheClusterSize = none) :
    applyOperations st [⟨"replace", "/cacheClusterEnabled", "true"⟩] =
      ({ st with cacheClusterEnabled := some true, cacheClusterSize := some "0.5" }, none) := by
  have hop : applyOp st ⟨"replace", "/cacheClusterEnabled", "true"⟩ =
      ({ st with cacheClusterEnabled := some true, cacheClusterSize := some "0.5" }, none) := by
    unfold applyOp
    simp only [show strContains "/cacheClusterEnabled" "variables/" = false from by decide,
      show strContains "/cacheClusterEnabled" "/cacheClusterEnabled" = true from by decide,
      show str2bool "true" = true from by decide]
    simp [h]
  simp [applyOperations, hop]

/-- Witness for C9 at the sample stage. -/
theorem C9_cache_cluster_enabled_patch_witness :
    applyOperations stW [⟨"replace", "/cacheClusterEnabled", "true"⟩] =
      ({ stW with cacheClusterEnabled := some true, cacheClusterSize := some "0.5" }, none) :=
  C9_cache_cluster_enabled_patch stW (by decide)

/-- C10: create_resource validates path_part against the segment pattern
before resolving the REST API id, so an invalid path_part signals
InvalidResourcePathException even for a missing API, and RestAPINotFound is
raised for a missing API only when the path_part is valid. -/
theorem C10_create_resource_validation_order (b : APIGatewayBackend)
    (childId function_id : String) (parent_resource_id : Option String)
    (path_part : String) :
    (matchResourcePath path_part = false →
      createResource b childId function_id parent_resource_id path_part =
        Except.error ApiError.invalidResourcePathException) ∧
    (matchResourcePath path_part = true → dictGet? b.apis function_id = none →
      createResource b childId function_id parent_resource_id path_part =
        Except.error ApiError.restAPINotFound) := by
  constructor
  · intro h
    unfold createResource
    simp [h]
  · intro h hapi
    unfold createResource
    simp [h, getRestApi, hapi]

/-- Witness for C10 on the empty backend: an invalid segment beats the
missing API, a valid segment reaches the API lookup. -/
theorem C10_create_resource_validation_order_witness :
    createResource b0 "cid" "api1" none "a b" =
      Except.error ApiError.invalidResourcePathException ∧
    createResource b0 "cid" "api1" none "pets" =
      Except.error ApiError.restAPINotFound :=
  ⟨(C10_create_resource_validation_order b0 "cid" "api1" none "a b").1 (by decide),
   (C10_create_resource_validation_order b0 "cid" "api1" none "pets").2
     (by decide) (by decide)⟩

/-- C2: get_path of a parentless node with the root segment is the root
path, and get_path of a node with a parent is the parent's path (with a
slash appended unless that path is already the root path) followed by the
node's own segment. -/
theorem C2_get_path_spec (api : RestAPI) (fuel : Nat) :
    (∀ res : Resource, res.parent_id = none → res.path_part = "/" →
      getPath api (fuel + 1) res = some "/") ∧
    (∀ (res : Resource) (pid : String) (parent : Resource) (parentPath : String),
      res.parent_id = some pid → pid ≠ "" →
      dictGet? api.resources pid = some parent →
      getPath api fuel parent = some parentPath →
      getPath api (fuel + 1) res =
        some ((if parentPath == "/" then parentPath else parentPath ++ "/") ++
          res.path_part)) := by
  constructor
  · intro res hpid hpp
    unfold getPath
    simp [hpid, optStrTruthy, hpp]
  · intro res pid parent parentPath hpid hne hget hpp
    have hts : optStrTruthy (some pid) = true := by simp [optStrTruthy, hne]
    unfold getPath
    rw [hpid]
    simp [hts, hget, hpp]

/-- Witness for C2 on the two-node sample tree. -/
theorem C2_get_path_spec_witness :
    getPath apiW 1 rootW = some "/" ∧ getPath apiW 2 childW = some "/pets" := by
  constructor
  · exact (C2_get_path_spec apiW 0).1 rootW rfl rfl
  · have h := (C2_get_path_spec apiW 1).2 childW "root" rootW "/" rfl (by decide)
      (by decide) ((C2_get_path_spec apiW 0).1 rootW rfl rfl)
    exact h.trans (by decide)

/-- C4: a throttling rateLimit patch on a stage whose methodSettings has no
entry for the wildcard key creates that entry with exactly the default
settings, except throttlingRateLimit, which is set to the float 500. -/
theorem C4_method_settings_defaults (st : Stage)
    (h : dictGet? st.methodSettings "*/*" = none) :
    applyOperations st [⟨"replace", "/*/*/throttling/rateLimit", "500"⟩] =
      ({ st with methodSettings := dictSet st.methodSettings "*/*" rateLimitedDefaults }, none) := by
  have hop : applyOp st ⟨"replace", "/*/*/throttling/rateLimit", "500"⟩ =
      ({ st with methodSettings := dictSet st.methodSettings "*/*" rateLimitedDefaults }, none) := by
    unfold applyOp
    simp only [show strContains "/*/*/throttling/rateLimit" "variables/" = false from by decide,
      show strContains "/*/*/throttling/rateLimit" "/cacheClusterEnabled" = false from by decide,
      show strContains "/*/*/throttling/rateLimit" "/cacheClusterSize" = false from by decide,
      show strContains "/*/*/throttling/rateLimit" "/description" = false from by decide,
      show strContains "/*/*/throttling/rateLimit" "/deploymentId" = false from by decide,
      show pySplitN '/' 3 "/*/*/throttling/rateLimit" =
        ["", "*", "*", "throttling/rateLimit"] from by decide,
      show (("*" : String) ++ "/" ++ "*") = "*/*" from by decide,
      Bool.false_eq_true, if_false]
    unfold patchMethodSetting
    rw [show methodSettingsTranslations "throttling/rateLimit" =
      some "throttlingRateLimit" from by decide]
    simp [dictHas, h, dictGet_dictSet_self, dictSet_dictSet_self, rateLimitedDefaults,
      show convertToType "throttlingRateLimit" "500" = some (SettingVal.f 500) from by decide]
  simp [applyOperations, hop]

/-- Witness for C4 at the sample stage. -/
theorem C4_method_settings_defaults_witness :
    applyOperations stW [⟨"replace", "/*/*/throttling/rateLimit", "500"⟩] =
      ({ stW with methodSettings := dictSet stW.methodSettings "*/*" rateLimitedDefaults }, none) :=
  C4_method_settings_defaults stW (by decide)

/-- C5: a patch operation whose op and path match none of the recognized
dispatch arms (no known path fragment, op not replace) makes
apply_operations stop with the unsupported-patch-operation failure; the
operations before it remain applied (the state is exactly the state after
the previous operations) and the operations after it are never applied. -/
theorem C5_patch_batch_not_atomic (st st2 : Stage) (pre post : List PatchOp)
    (bad : PatchOp)
    (hv : strContains bad.path "variables/" = false)
    (h1 : strContains bad.path "/cacheClusterEnabled" = false)
    (h2 : strContains bad.path "/cacheClusterSize" = false)
    (h3 : strContains bad.path "/description" = false)
    (h4 : strContains bad.path "/deploymentId" = false)
    (hop : bad.op ≠ "replace")
    (hpre : applyOperations st pre = (st2, none)) :
    applyOperations st (pre ++ bad :: post) =
      (st2, some ApiError.patchNotImplemented) := by
  have hbad : ∀ s : Stage, applyOp s bad = (s, some ApiError.patchNotImplemented) := by
    intro s
    unfold applyOp
    simp [hv, h1, h2, h3, h4, hop]
  induction pre generalizing st with
  | nil =>
    simp only [applyOperations] at hpre
    injection hpre with hst _
    subst hst
    simp [applyOperations, hbad]
  | cons p ps ih =>
    simp only [List.cons_append, applyOperations] at hpre ⊢
    cases happ : applyOp st p with
    | mk s1 e1 =>
      rw [happ] at hpre
      cases e1 with
      | some e => simp at hpre
      | none => exact ih s1 hpre

/-- Witness for C5: the description patch before the unknown operation
takes effect, the one after it does not. -/
theorem C5_patch_batch_not_atomic_witness :
    applyOperations stW
      ([⟨"replace", "/description", "x"⟩] ++
        ⟨"add", "/foo", ""⟩ :: [⟨"replace", "/description", "y"⟩]) =
      ({ stW with description := "x" }, some ApiError.patchNotImplemented) :=
  C5_patch_batch_not_atomic stW { stW with description := "x" }
    [⟨"replace", "/description", "x"⟩] [⟨"replace", "/description", "y"⟩]
    ⟨"add", "/foo", ""⟩ (by decide) (by decide) (by decide) (by decide) (by decide)
    (by decide) (by decide)

/-- C3 counterexample: with integration type AWS, the plain S3 ARN
arn:aws:s3:::bucket, an integration method supplied and no credentials, the
claim predicts RoleNotSpecified, but the RoleNotSpecified guard only fires
for URIs matching the apigateway-service S3 pattern, so the call falls
through to the final ARN-shape check and signals InvalidIntegrationArn. -/
theorem C3_s3_arn_counterexample :
    createIntegration bC1 "123456789012" "api1" "res1" "PUT" "AWS" "arn:aws:s3:::bucket"
      (some "PUT") none none = Except.error ApiError.invalidIntegrationArn := rfl

/-- C3 amended: for type AWS and a URI matching the apigateway-service S3
ARN pattern (the S3-targeting shape the source actually tests), with an
integration method supplied, the call without credentials signals
RoleNotSpecified, and the same call with a nonempty credentials ARN whose
prefix is the current account's IAM ARN never signals RoleNotSpecified. -/
theorem C3_role_not_specified_amended (b : APIGatewayBackend) (accountId : String)
    (function_id resource_id method_type uri : String) (im : Option String)
    (api : RestAPI) (res : Resource)
    (hres : getResource b function_id resource_id = Except.ok (api, res))
    (hs3 : matchApigwS3 uri = true)
    (him : optStrTruthy im = true) :
    (createIntegration b accountId function_id resource_id method_type "AWS" uri
        im none none = Except.error ApiError.roleNotSpecified) ∧
    (∀ c : String, c ≠ "" → strStarts c ("arn:aws:iam::" ++ accountId) = true →
      createIntegration b accountId function_id resource_id method_type "AWS" uri
          im (some c) none ≠ Except.error ApiError.roleNotSpecified) := by
  have mAll : (["HTTP", "HTTP_PROXY", "AWS", "AWS_PROXY"].contains "AWS") = true := by decide
  have mProxy : (["AWS_PROXY"].contains "AWS") = false := by decide
  have mAws : (["AWS"].contains "AWS") = true := by decide
  have mHttp : (["HTTP", "HTTP_PROXY"].contains "AWS") = false := by decide
  have mBoth : (["AWS", "AWS_PROXY"].contains "AWS") = true := by decide
  have hnone : optStrTruthy (none : Option String) = false := rfl
  constructor
  · unfold createIntegration
    rw [hres]
    simp [him, hs3, mAll, mProxy, mAws, hnone]
  · intro c hc hstart
    have hct : optStrTruthy (some c) = true := by simp [optStrTruthy, hc]
    unfold createIntegration
    rw [hres]
    simp only [hct, hstart, him, mAll, mProxy, mAws, mHttp, mBoth, Option.getD_some,
      Bool.not_true, Bool.false_and, Bool.and_false, Bool.true_and, Bool.and_true,
      Bool.false_eq_true, if_false]
    split
    · simp
    · split
      · simp
      · unfold addIntegration
        cases hm : dictGet? res.resource_methods method_type <;> simp

/-- Witness for the amended C3 on the sample backend. -/
theorem C3_role_not_specified_amended_witness :
    createIntegration bC1 "123456789012" "api1" "res1" "GET" "AWS"
      "arn:aws:apigateway:us-east-1:s3:path/b/k" (some "PUT") none none =
      Except.error ApiError.roleNotSpecified ∧
    createIntegration bC1 "123456789012" "api1" "res1" "GET" "AWS"
      "arn:aws:apigateway:us-east-1:s3:path/b/k" (some "PUT")
      (some "arn:aws:iam::123456789012:role/r") none ≠
      Except.error ApiError.roleNotSpecified := by
  have h := C3_role_not_specified_amended bC1 "123456789012" "api1" "res1" "GET"
    "arn:aws:apigateway:us-east-1:s3:path/b/k" (some "PUT") apiC1 childM rfl
    (by decide) (by decide)
  exact ⟨h.1, h.2 "arn:aws:iam::123456789012:role/r" (by decide) (by decide)⟩

/-- When every node's path resolves and none equals the needle, the scan
falls off the list and returns ok none. -/
theorem scanForPath_no_match (api : RestAPI) (fuel : Nat) (p : String) :
    ∀ l : List Resource, (∀ r ∈ l, (getPath api fuel r).isSome = true) →
      (∀ r ∈ l, getPath api fuel r ≠ some p) →
      scanForPath api fuel p l = Except.ok none := by
  intro l
  induction l with
  | nil => intro _ _; rfl
  | cons r rest ih =>
    intro hwf hnm
    obtain ⟨rp, hrp⟩ := Option.isSome_iff_exists.mp (hwf r (by simp))
    have hne : (rp == p) = false := by
      rw [beq_eq_false_iff_ne]
      intro hh
      exact hnm r (by simp) (by rw [hrp, hh])
    unfold scanForPath
    rw [hrp]
    simp only [hne, Bool.false_eq_true, if_false]
    exact ih (fun r2 h2 => hwf r2 (List.mem_cons_of_mem r h2))
      (fun r2 h2 => hnm r2 (List.mem_cons_of_mem r h2))

/-- The scan returns the first node, in list order, whose path equals the
needle. -/
theorem scanForPath_first_match (api : RestAPI) (fuel : Nat) (p : String) :
    ∀ (pre : List Resource) (r : Resource) (post : List Resource),
      (∀ r2 ∈ pre, (getPath api fuel r2).isSome = true) →
      (∀ r2 ∈ pre, getPath api fuel r2 ≠ some p) →
      getPath api fuel r = some p →
      scanForPath api fuel p (pre ++ r :: post) = Except.ok (some r) := by
  intro pre
  induction pre with
  | nil =>
    intro r post _ _ hr
    simp only [List.nil_append]
    unfold scanForPath
    rw [hr]
    simp
  | cons a rest ih =>
    intro r post hwf hnm hr
    obtain ⟨ap, hap⟩ := Option.isSome_iff_exists.mp (hwf a (by simp))
    have hne : (ap == p) = false := by
      rw [beq_eq_false_iff_ne]
      intro hh
      exact hnm a (by simp) (by rw [hap, hh])
    simp only [List.cons_append]
    unfold scanForPath
    rw [hap]
    simp only [hne, Bool.false_eq_true, if_false]
    exact ih r post (fun x hx => hwf x (List.mem_cons_of_mem a hx))
      (fun x hx => hnm x (List.mem_cons_of_mem a hx)) hr

/-- C6 counterexample: with no matching node the lookup does not signal
NotFound (or any error): it returns ok none, i.e. the source function falls
off its loop and implicitly returns None. -/
theorem C6_get_resource_for_path_counterexample :
    getResourceForPath apiW 5 "/nope" = Except.ok none := rfl

/-- C6 amended: get_resource_for_path scans the nodes in insertion order
and returns the first one whose derived path equals the argument; when no
node matches it returns None (ok none) rather than signalling NotFound. -/
theorem C6_get_resource_for_path_amended (api : RestAPI) (fuel : Nat) (p : String)
    (hwf : ∀ r ∈ dictValues api.resources, (getPath api fuel r).isSome = true) :
    ((∀ r ∈ dictValues api.resources, getPath api fuel r ≠ some p) →
      getResourceForPath api fuel p = Except.ok none) ∧
    (∀ (pre : List Resource) (r : Resource) (post : List Resource),
      dictValues api.resources = pre ++ r :: post →
      (∀ r2 ∈ pre, getPath api fuel r2 ≠ some p) →
      getPath api fuel r = some p →
      getResourceForPath api fuel p = Except.ok (some r)) := by
  constructor
  · intro hnm
    unfold getResourceForPath
    exact scanForPath_no_match api fuel p _ hwf hnm
  · intro pre r post hsplit hnm hr
    unfold getResourceForPath
    rw [hsplit]
    refine scanForPath_first_match api fuel p pre r post ?_ hnm hr
    intro x hx
    exact hwf x (by rw [hsplit]; exact List.mem_append_left _ hx)

/-- Witness for the amended C6: the child is found by its full path. -/
theorem C6_get_resource_for_path_amended_witness :
    getResourceForPath apiW 5 "/pets" = Except.ok (some childW) :=
  (C6_get_resource_for_path_amended apiW 5 "/pets" (by decide)).2 [rootW] childW []
    (by decide) (by decide) (by decide)

/-- C7 counterexample: associating a usage-plan key with an unknown key id
signals ApiKeyNotFoundException, but the backend state is not unchanged:
an empty entry for the plan id has been inserted into usage_plan_keys. -/
theorem C7_usage_plan_key_counterexample :
    (createUsagePlanKey b0 "plan1" ⟨"k1", "API_KEY"⟩).2 =
      Except.error ApiError.apiKeyNotFoundException ∧
    (createUsagePlanKey b0 "plan1" ⟨"k1", "API_KEY"⟩).1 ≠ b0 := by
  constructor
  · rfl
  · decide

/-- C7 amended: with a key id absent from the key collection the call
signals ApiKeyNotFoundException; the keys and apis collections are
unchanged and every plan's association list is unchanged, except that the
given plan id now maps to an entry (its previous association list, or a
newly inserted empty one) — no UsagePlanKey is stored. -/
theorem C7_usage_plan_key_amended (b : APIGatewayBackend) (planId : String)
    (p : UsagePlanKeyPayload) (h : dictGet? b.keys p.keyId = none) :
    (createUsagePlanKey b planId p).2 = Except.error ApiError.apiKeyNotFoundException ∧
    (createUsagePlanKey b planId p).1.keys = b.keys ∧
    (createUsagePlanKey b planId p).1.apis = b.apis ∧
    ∀ pid : String,
      dictGet? (createUsagePlanKey b planId p).1.usage_plan_keys pid =
        (if pid = planId then some ((dictGet? b.usage_plan_keys planId).getD [])
         else dictGet? b.usage_plan_keys pid) := by
  have key : createUsagePlanKey b planId p =
      (if dictHas b.usage_plan_keys planId then b
       else { b with usage_plan_keys := dictSet b.usage_plan_keys planId [] },
        Except.error ApiError.apiKeyNotFoundException) := by
    unfold createUsagePlanKey
    cases hh : dictHas b.usage_plan_keys planId with
    | false => simp [hh, h]
    | true => simp [hh, h]
  rw [key]
  refine ⟨rfl, ?_, ?_, ?_⟩
  · cases hh : dictHas b.usage_plan_keys planId <;> simp [hh]
  · cases hh : dictHas b.usage_plan_keys planId <;> simp [hh]
  · intro pid
    cases hh : dictHas b.usage_plan_keys planId with
    | true =>
      have hsome : (dictGet? b.usage_plan_keys planId).isSome = true := hh
      obtain ⟨L, hL⟩ := Option.isSome_iff_exists.mp hsome
      simp only [hh, if_true]
      by_cases hpid : pid = planId
      · subst hpid; simp [hL]
      · simp [hpid]
    | false =>
      have hnone : dictGet? b.usage_plan_keys planId = none := by
        have hsome : (dictGet? b.usage_plan_keys planId).isSome = false := hh
        cases hx : dictGet? b.usage_plan_keys planId with
        | none => rfl
        | some L => rw [hx] at hsome; simp at hsome
      simp only [hh, Bool.false_eq_true, if_false]
      by_cases hpid : pid = planId
      · subst hpid; simp [dictGet_dictSet_self, hnone]
      · simp [hpid, dictGet_dictSet_ne _ _ _ _ hpid]

/-- Witness for the amended C7: the error is signalled and the plan id now
maps to the empty association list. -/
theorem C7_usage_plan_key_amended_witness :
    (createUsagePlanKey bUPK "plan1" ⟨"k1", "API_KEY"⟩).2 =
      Except.error ApiError.apiKeyNotFoundException ∧
    dictGet? (createUsagePlanKey bUPK "plan1" ⟨"k1", "API_KEY"⟩).1.usage_plan_keys
      "plan1" = some [] := by
  have h := C7_usage_plan_key_amended bUPK "plan1" ⟨"k1", "API_KEY"⟩ (by decide)
  refine ⟨h.1, ?_⟩
  rw [h.2.2.2 "plan1"]
  decide

/-- C8: creating an API key with an explicit value already held by some
stored key signals ApiKeyAlreadyExists and leaves the backend unchanged;
with an explicit value no stored key holds, the key is created, stored
under its id, and carries the supplied value (when that value is
nonempty). -/
theorem C8_apikey_value_unique (b : APIGatewayBackend) (freshId freshValue : String)
    (now : Int) (p : ApiKeyPayload) (v : String) (hv : p.value = some v) :
    ((∃ k ∈ dictValues b.keys, k.value = v) →
      createApikey b freshId freshValue now p =
        (b, Except.error ApiError.apiKeyAlreadyExists)) ∧
    ((∀ k ∈ dictValues b.keys, k.value ≠ v) →
      createApikey b freshId freshValue now p =
        ({ b with keys := dictSet b.keys freshId (mkApiKey freshId freshValue now p) },
          Except.ok (mkApiKey freshId freshValue now p)) ∧
      (v ≠ "" → (mkApiKey freshId freshValue now p).value = v)) := by
  constructor
  · intro hex
    have hany : (dictValues b.keys).any (fun k => k.value == v) = true := by
      rw [List.any_eq_true]
      obtain ⟨k, hk, hkv⟩ := hex
      exact ⟨k, hk, by simp [hkv]⟩
    unfold createApikey
    rw [hv]
    simp [hany]
  · intro hall
    have hany : (dictValues b.keys).any (fun k => k.value == v) = false := by
      have hnot : ¬ ((dictValues b.keys).any (fun k => k.value == v) = true) := by
        rw [List.any_eq_true]
        rintro ⟨k, hk, hkv⟩
        exact hall k hk (by simpa using hkv)
      simpa using hnot
    constructor
    · unfold createApikey
      rw [hv]
      simp [hany, mkApiKey, hv]
    · intro hne
      simp [mkApiKey, hv, hne]

/-- Witness for C8: a duplicate explicit value abc is rejected, a fresh
explicit value xyz is stored. -/
theorem C8_apikey_value_unique_witness :
    createApikey bK "k2" "gv2" 0 { value := some "abc" } =
      (bK, Except.error ApiError.apiKeyAlreadyExists) ∧
    createApikey bK "k2" "gv2" 0 { value := some "xyz" } =
      ({ bK with keys := dictSet bK.keys "k2" (mkApiKey "k2" "gv2" 0 { value := some "xyz" }) },
        Except.ok (mkApiKey "k2" "gv2" 0 { value := some "xyz" })) := by
  constructor
  · exact (C8_apikey_value_unique bK "k2" "gv2" 0 { value := some "abc" } "abc" rfl).1
      ⟨keyA, by decide, by decide⟩
  · exact ((C8_apikey_value_unique bK "k2" "gv2" 0 { value := some "xyz" } "xyz" rfl).2
      (by decide)).1

end ApiGateway
